import Mathlib

/-!
Shallow embedding of the RAG notebook `third_party/MongoDB/rag_using_mongodb.ipynb`.

The notebook is a linear pipeline of glue code around four external services:
a remote dataset host (HTTP), the VoyageAI embedding service, a MongoDB Atlas
cluster, and the Anthropic language-model API.  Each external service is
modelled as an oracle parameter (a plain function); the notebook functions
`download_and_combine_parquet_files`, `get_embedding`, `get_mongo_client`,
`vector_search` and `handle_user_query` are translated from the source.
Numeric vector components and similarity scores are idealised as integers
(the claims under verification only depend on ordering and on structural
pass-through, never on real arithmetic).  A Python exception is modelled as
`Option.none` of the embedded function; `print` logging is modelled by an
explicit list of log lines.
-/

/-- One row of a parquet table, kept opaque: the loader never inspects rows. -/
abbrev Row := Nat

/-- Result of one HTTP GET against the remote dataset source: the status code
and the rows that `pandas.read_parquet` would extract from the body.  Parsing
a well-formed body is treated as total; malformed bodies are out of scope. -/
structure HttpResponse where
  status_code : Nat
  rows : List Row
deriving DecidableEq

/-- The log line printed by the loader for a failed download, from
`print(f"Failed to download Parquet file from {parquet_file_url}: {response.status_code}")`. -/
def failLog (u : String) (code : Nat) : String :=
  "Failed to download Parquet file from " ++ u ++ ": " ++ toString code

/-- The body of the `for parquet_file_url in parquet_file_urls` loop: a 200
response appends the parsed table to `all_dataframes`, anything else prints
the failure log line and skips the file. -/
def loaderStep (fetch : String → HttpResponse) (acc : List (List Row) × List String)
    (u : String) : List (List Row) × List String :=
  let r := fetch u
  if r.status_code = 200 then (acc.1 ++ [r.rows], acc.2)
  else (acc.1, acc.2 ++ [failLog u r.status_code])

/-- `download_and_combine_parquet_files(parquet_file_urls, hf_token)`: downloads
every URL, keeps the tables of the 200 responses, and either concatenates them
(`pd.concat` with `ignore_index=True` is list flatten on rows) or, when no
download succeeded, prints `No dataframes to concatenate.` and returns `None`
(here `Option.none`).  The second component collects the printed log lines.
The `hf_token` only feeds the request header and is absorbed into `fetch`. -/
def download_and_combine_parquet_files (fetch : String → HttpResponse)
    (parquet_file_urls : List String) : Option (List Row) × List String :=
  let acc := parquet_file_urls.foldl (loaderStep fetch) ([], [])
  if acc.1.isEmpty then (Option.none, acc.2 ++ ["No dataframes to concatenate."])
  else (some acc.1.flatten, acc.2)

/-- The tables of the successfully fetched files, in request order: statement
vocabulary for the loader theorems. -/
def successRows (fetch : String → HttpResponse) (urls : List String) : List (List Row) :=
  (urls.filter fun u => (fetch u).status_code == 200).map fun u => (fetch u).rows

/-- The failure log lines of the unsuccessful fetches, in request order:
statement vocabulary for the loader theorems. -/
def failLogs (fetch : String → HttpResponse) (urls : List String) : List String :=
  (urls.filter fun u => !((fetch u).status_code == 200)).map fun u =>
    failLog u (fetch u).status_code

/-- Python truth of `not text.strip()`: the string is empty or consists only
of whitespace characters. -/
def isBlank (text : String) : Bool := text.toList.all fun c => c.isWhitespace

/-- A value the Python `get_embedding` could evaluate to: `None` or a list of
numbers.  The codomain carries `pyNone` so that the `query_embedding is None`
guard of `vector_search` is expressible. -/
inductive EmbResult where
  | pyNone : EmbResult
  | vec : List ℤ → EmbResult
deriving DecidableEq

/-- `get_embedding(text)`: a blank input short-circuits to the empty list
without touching the remote service; otherwise the VoyageAI client is called
once (`vo.embed(...)`, modelled by the oracle `vo_embed` returning the
`embeddings` field of the response) and the first returned vector is the
result.  The `Bool` records whether the remote service was called, and
`Option.none` models the `IndexError` raised by `embedding.embeddings[0]`
were the response to carry no vector. -/
def get_embedding (vo_embed : String → List (List ℤ)) (text : String) :
    Option (EmbResult × Bool) :=
  if isBlank text then some (EmbResult.vec [], false)
  else
    match (vo_embed text).head? with
    | some v => some (EmbResult.vec v, true)
    | Option.none => Option.none

/-- An ingested article record as stored in the collection: the fields of the
tech-news dataframe plus the `_id` MongoDB assigns on insert and the embedding
column.  Payload fields are optional, matching the `.get(..., 'N/A')` access
pattern downstream. -/
structure Document where
  oid : String
  title : Option String
  companyName : Option String
  companyUrl : Option String
  published_at : Option String
  url : Option String
  description : Option String
  embedding : List ℤ
deriving DecidableEq

/-- A record as returned by the search pipeline after the `$project` stage:
the `_id` and `embedding` fields are gone (absent from the type), the other
payload fields remain, and the vector-search score is attached. -/
structure ProjectedDoc where
  title : Option String
  companyName : Option String
  companyUrl : Option String
  published_at : Option String
  url : Option String
  description : Option String
  score : ℤ
deriving DecidableEq

/-- Modelled from the spec: the `$project` stage of the external document
database, applied to the projection document of `vector_search` — it drops
the `_id` and `embedding` fields, passes every other field of the record
through unchanged, and adds the `vectorSearchScore` meta field as `score`. -/
def projectDoc (d : Document) (s : ℤ) : ProjectedDoc :=
  { title := d.title, companyName := d.companyName, companyUrl := d.companyUrl,
    published_at := d.published_at, url := d.url, description := d.description,
    score := s }

/-- Insert an element into a list sorted by non-increasing key, keeping the
order non-increasing (ties land after existing equals: one realisation of the
unspecified internal tie order of the store). -/
def insertDescBy {α : Type} (key : α → ℤ) (x : α) : List α → List α
  | [] => [x]
  | y :: ys => if key y < key x then x :: y :: ys else y :: insertDescBy key x ys

/-- Sort a list by non-increasing key (insertion sort). -/
def sortDescBy {α : Type} (key : α → ℤ) : List α → List α
  | [] => []
  | x :: xs => insertDescBy key x (sortDescBy key xs)

/-- Modelled from the spec: the `$vectorSearch` aggregation stage is
implemented by the external document database, absent from the repository.
Per the spec it scores every record of the collection against the query
vector with the cosine similarity metric (abstracted here as the oracle
`sim`), orders records by descending similarity — ties broken by an
unspecified internal order — scans `numCandidates` candidates and returns at
most `limit` of them. -/
def vectorSearchStage (sim : List ℤ → List ℤ → ℤ) (collection : List Document)
    (queryVector : List ℤ) (numCandidates limit : Nat) : List (Document × ℤ) :=
  (((sortDescBy Prod.snd
      (collection.map fun d => (d, sim queryVector d.embedding))).take
    numCandidates).take limit)

/-- The aggregation pipeline of `vector_search`: the `$vectorSearch` stage
with index `vector_index`, path `embedding`, `numCandidates` 150 and `limit`
5, followed by the `$project` stage. -/
def run_pipeline (sim : List ℤ → List ℤ → ℤ) (collection : List Document)
    (queryVector : List ℤ) : List ProjectedDoc :=
  (vectorSearchStage sim collection queryVector 150 5).map fun p => projectDoc p.1 p.2

/-- `vector_search(user_query, collection)`: embeds the query, returns the
error string when the embedding `is None`, and otherwise runs the aggregation
pipeline and lists the results.  `Option.none` propagates a raise from
`get_embedding`. -/
def vector_search (sim : List ℤ → List ℤ → ℤ) (vo_embed : String → List (List ℤ))
    (user_query : String) (collection : List Document) :
    Option (String ⊕ List ProjectedDoc) :=
  match get_embedding vo_embed user_query with
  | Option.none => Option.none
  | some (EmbResult.pyNone, _) => some (Sum.inl "Invalid query or embedding generation failed.")
  | some (EmbResult.vec query_embedding, _) =>
      some (Sum.inr (run_pipeline sim collection query_embedding))

/-- One message of an Anthropic request. -/
structure LMMessage where
  role : String
  content : String
deriving DecidableEq

/-- The request `client.messages.create(...)` sends. -/
structure LMRequest where
  model : String
  max_tokens : Nat
  system : String
  messages : List LMMessage
deriving DecidableEq

/-- One block of the response content; `response.content[0].text` reads the
`text` field of the first one. -/
structure ContentBlock where
  text : String
deriving DecidableEq

/-- The response returned by the language-model service. -/
structure LMResponse where
  content : List ContentBlock
deriving DecidableEq

/-- The line `handle_user_query` renders for one search result: the f-string
with `.get(..., 'N/A')` field access and the trailing `, \n`. -/
def fmtLine (r : ProjectedDoc) : String :=
  "Title: " ++ r.title.getD "N/A" ++
  ", Company Name: " ++ r.companyName.getD "N/A" ++
  ", Company URL: " ++ r.companyUrl.getD "N/A" ++
  ", Date Published: " ++ r.published_at.getD "N/A" ++
  ", Article URL: " ++ r.url.getD "N/A" ++
  ", Description: " ++ r.description.getD "N/A" ++
  ", \n"

/-- The `search_result` accumulation loop of `handle_user_query`: starts from
the empty string and appends one formatted line per result. -/
def mkContext (results : List ProjectedDoc) : String :=
  results.foldl (fun acc r => acc ++ fmtLine r) ""

/-- The literal system string of the notebook (including its typos). -/
def systemPrompt : String :=
  "You are Venture Captital Tech Analyst with access to some tech company articles and information. You use the information you are given to provide advice."

/-- The exact request `handle_user_query` builds: model
`claude-3-opus-20240229`, `max_tokens` 1024, the fixed system string, and a
single user message concatenating the instruction text, the raw query, and
the context block. -/
def mkRequest (query : String) (search_result : String) : LMRequest :=
  { model := "claude-3-opus-20240229", max_tokens := 1024, system := systemPrompt,
    messages := [{ role := "user",
                   content := "Answer this user query: " ++ query ++
                     " with the following context: " ++ search_result }] }

/-- The tail of `handle_user_query` after `get_knowledge` is in hand: build
the context block, issue the one language-model request, and return the text
of the first content block together with the raw context block.  The second
component logs every request issued to the service; `Option.none` models the
`IndexError` of `response.content[0]` on an empty content list. -/
def respond_to_query (llm : LMRequest → LMResponse) (query : String)
    (get_knowledge : List ProjectedDoc) : Option (String × String) × List LMRequest :=
  let search_result := mkContext get_knowledge
  let req := mkRequest query search_result
  match (llm req).content.head? with
  | some block => (some (block.text, search_result), [req])
  | Option.none => (Option.none, [req])

/-- `handle_user_query(query, collection)`: runs `vector_search` and feeds
its result list to the response step.  A raise inside `vector_search`
propagates; were `vector_search` to return its error string, the `for` loop
would iterate over the characters of that string and `result.get` would raise
`AttributeError` before any request is issued, hence `(Option.none, [])`. -/
def handle_user_query (sim : List ℤ → List ℤ → ℤ) (vo_embed : String → List (List ℤ))
    (llm : LMRequest → LMResponse) (query : String) (collection : List Document) :
    Option (String × String) × List LMRequest :=
  match vector_search sim vo_embed query collection with
  | Option.none => (Option.none, [])
  | some (Sum.inl _) => (Option.none, [])
  | some (Sum.inr get_knowledge) => respond_to_query llm query get_knowledge

/-- The state of the target collection on the cluster. -/
structure MongoState where
  collection : List Document
deriving DecidableEq

/-- The log line of the `except pymongo.errors.ConnectionFailure` branch. -/
def connFailedLog (e : String) : String := "Connection failed: " ++ e

/-- `get_mongo_client(mongo_uri)`: the connection attempt either yields a
client for the cluster (modelled as the collection state it exposes) or
raises `ConnectionFailure`, which is caught, logged, and turned into `None`. -/
def get_mongo_client (attempt : Except String MongoState) :
    Option MongoState × List String :=
  match attempt with
  | Except.ok client => (some client, ["Connection to MongoDB successful"])
  | Except.error e => (Option.none, [connFailedLog e])

/-- `collection.delete_many({})`: removes every record. -/
def delete_many (s : MongoState) : MongoState := { s with collection := [] }

/-- `collection.insert_many(records)`: appends the batch. -/
def insert_many (records : List Document) (s : MongoState) : MongoState :=
  { s with collection := s.collection ++ records }

/-- The ingestion cells of Step 4 as one function: connect, then clear the
collection and ingest the dataframe records.  When `get_mongo_client`
returned `None`, the very next statement `db = mongo_client[DB_NAME]`
subscripts `None` and raises `TypeError`, so no database operation runs and
the run aborts: modelled by `Option.none` with only the connection-failure
log emitted. -/
def run_ingestion (attempt : Except String MongoState) (records : List Document) :
    Option MongoState × List String :=
  match get_mongo_client attempt with
  | (Option.none, logs) => (Option.none, logs)
  | (some client, logs) => (some (insert_many records (delete_many client)), logs)

/-- Witness oracle: dot product as a concrete similarity function. -/
def wSim : List ℤ → List ℤ → ℤ := fun v w => ((v.zip w).map fun p => p.1 * p.2).sum

/-- Witness oracle: an embedding service answering `[[1]]` to everything. -/
def wRemote : String → List (List ℤ) := fun _ => [[1]]

/-- Witness oracle: an embedding service honouring the 1536-dimension contract. -/
def wRemote1536 : String → List (List ℤ) := fun _ => [List.replicate 1536 0]

/-- Witness oracle: a language model always answering `ok`. -/
def wLLM : LMRequest → LMResponse := fun _ => { content := [{ text := "ok" }] }

/-- Witness oracle: `good` is served with rows `[1, 2]`, anything else 404s. -/
def wFetch : String → HttpResponse := fun u =>
  if u = "good" then { status_code := 200, rows := [1, 2] }
  else { status_code := 404, rows := [] }

/-- Witness record with embedding `[2]`. -/
def wDoc1 : Document :=
  { oid := "a", title := some "t1", companyName := some "c1",
    companyUrl := Option.none, published_at := Option.none, url := Option.none,
    description := some "d1", embedding := [2] }

/-- Witness record with embedding `[3]`. -/
def wDoc2 : Document :=
  { oid := "b", title := some "t2", companyName := some "c2",
    companyUrl := Option.none, published_at := Option.none, url := Option.none,
    description := some "d2", embedding := [3] }

/-- Witness collection. -/
def wColl : List Document := [wDoc1, wDoc2]

/-! ## Helper lemmas -/

/-- Running the download loop from any accumulator appends the successful
tables and the failure logs, in request order. -/
theorem loader_foldl_eq (fetch : String → HttpResponse) (urls : List String) :
    ∀ a log, urls.foldl (loaderStep fetch) (a, log) =
      (a ++ successRows fetch urls, log ++ failLogs fetch urls) := by
  induction urls with
  | nil => intro a log; simp [successRows, failLogs]
  | cons u rest ih =>
    intro a log
    by_cases h : (fetch u).status_code = 200
    · have hstep : loaderStep fetch (a, log) u = (a ++ [(fetch u).rows], log) := by
        simp [loaderStep, h]
      simp only [List.foldl_cons, hstep, ih]
      simp [successRows, failLogs, List.filter_cons, h]
    · have hstep : loaderStep fetch (a, log) u =
          (a, log ++ [failLog u (fetch u).status_code]) := by
        simp [loaderStep, h]
      simp only [List.foldl_cons, hstep, ih]
      simp [successRows, failLogs, List.filter_cons, h]

/-- The loop accumulator of the loader, from the empty start. -/
theorem loader_acc (fetch : String → HttpResponse) (urls : List String) :
    urls.foldl (loaderStep fetch) ([], []) =
      (successRows fetch urls, failLogs fetch urls) := by
  simpa using loader_foldl_eq fetch urls [] []

/-- Membership in an insertion is membership in the inserted element or the list. -/
theorem mem_insertDescBy {α : Type} (key : α → ℤ) (x : α) (l : List α) (a : α) :
    a ∈ insertDescBy key x l ↔ a = x ∨ a ∈ l := by
  induction l with
  | nil => simp [insertDescBy]
  | cons y ys ih =>
    by_cases h : key y < key x
    · simp only [insertDescBy, if_pos h, List.mem_cons]
    · simp only [insertDescBy, if_neg h, List.mem_cons, ih]
      tauto

/-- Inserting into a non-increasing list keeps it non-increasing. -/
theorem pairwise_insertDescBy {α : Type} (key : α → ℤ) (x : α) (l : List α)
    (h : List.Pairwise (fun a b => key b ≤ key a) l) :
    List.Pairwise (fun a b => key b ≤ key a) (insertDescBy key x l) := by
  induction l with
  | nil => simp [insertDescBy]
  | cons y ys ih =>
    rw [List.pairwise_cons] at h
    obtain ⟨hy, hys⟩ := h
    by_cases hlt : key y < key x
    · simp only [insertDescBy, if_pos hlt]
      rw [List.pairwise_cons]
      constructor
      · intro b hb
        rcases List.mem_cons.mp hb with hb | hb
        · exact hb ▸ le_of_lt hlt
        · exact le_trans (hy b hb) (le_of_lt hlt)
      · rw [List.pairwise_cons]
        exact ⟨hy, hys⟩
    · simp only [insertDescBy, if_neg hlt]
      rw [List.pairwise_cons]
      constructor
      · intro b hb
        rcases (mem_insertDescBy key x ys b).mp hb with hb | hb
        · exact hb ▸ le_of_not_lt hlt
        · exact hy b hb
      · exact ih hys

/-- The insertion sort produces a non-increasing list. -/
theorem pairwise_sortDescBy {α : Type} (key : α → ℤ) (l : List α) :
    List.Pairwise (fun a b => key b ≤ key a) (sortDescBy key l) := by
  induction l with
  | nil => simp [sortDescBy]
  | cons x xs ih => exact pairwise_insertDescBy key x _ ih

/-- The insertion sort has the same members as its input. -/
theorem mem_sortDescBy {α : Type} (key : α → ℤ) (l : List α) (a : α) :
    a ∈ sortDescBy key l ↔ a ∈ l := by
  induction l with
  | nil => simp [sortDescBy]
  | cons x xs ih => simp [sortDescBy, mem_insertDescBy, ih]

/-- The pipeline returns at most five results, in non-increasing score order. -/
theorem run_pipeline_spec (sim : List ℤ → List ℤ → ℤ) (collection : List Document)
    (qv : List ℤ) :
    (run_pipeline sim collection qv).length ≤ 5 ∧
      List.Pairwise (fun a b => b.score ≤ a.score) (run_pipeline sim collection qv) := by
  constructor
  · simp only [run_pipeline, vectorSearchStage, List.length_map, List.length_take]
    exact le_trans inf_le_left (le_refl 5)
  · have hsorted : List.Pairwise (fun a b : Document × ℤ => b.2 ≤ a.2)
        (vectorSearchStage sim collection qv 150 5) := by
      have h1 := pairwise_sortDescBy (Prod.snd)
        (collection.map fun d => (d, sim qv d.embedding))
      exact List.Pairwise.sublist ((List.take_sublist _ _).trans (List.take_sublist _ _)) h1
    rw [run_pipeline, List.pairwise_map]
    exact hsorted.imp (fun h => h)

/-- Every scored pair the search stage keeps comes from the collection, with
the score the similarity oracle assigns. -/
theorem mem_vectorSearchStage (sim : List ℤ → List ℤ → ℤ) (collection : List Document)
    (qv : List ℤ) (nc lim : Nat) (p : Document × ℤ)
    (h : p ∈ vectorSearchStage sim collection qv nc lim) :
    p.1 ∈ collection ∧ p.2 = sim qv p.1.embedding := by
  have h1 : p ∈ sortDescBy Prod.snd (collection.map fun d => (d, sim qv d.embedding)) :=
    (List.take_sublist _ _).mem ((List.take_sublist _ _).mem h)
  rw [mem_sortDescBy] at h1
  obtain ⟨d, hd, hp⟩ := List.mem_map.mp h1
  subst hp
  exact ⟨hd, rfl⟩

/-- When `vector_search` returns a result list, that list is the pipeline run
on the embedding of the query. -/
theorem vector_search_inr (sim : List ℤ → List ℤ → ℤ)
    (vo_embed : String → List (List ℤ)) (user_query : String)
    (collection : List Document) (l : List ProjectedDoc)
    (h : vector_search sim vo_embed user_query collection = some (Sum.inr l)) :
    ∃ qe, l = run_pipeline sim collection qe := by
  unfold vector_search at h
  cases hge : get_embedding vo_embed user_query with
  | none => rw [hge] at h; simp at h
  | some p =>
    obtain ⟨r, b⟩ := p
    cases r with
    | pyNone => rw [hge] at h; simp at h
    | vec qe =>
      rw [hge] at h
      simp only [Option.some.injEq, Sum.inr.injEq] at h
      exact ⟨qe, h.symm⟩

/-! ## Claim theorems -/

/-- C1: For every query, `vector_search` returns at most K results with K the
hard-coded result limit 5 of the pipeline, and the returned sequence is
sorted by non-increasing similarity score. -/
theorem c1_vector_search_limit_and_order (sim : List ℤ → List ℤ → ℤ)
    (vo_embed : String → List (List ℤ)) (user_query : String)
    (collection : List Document) (l : List ProjectedDoc)
    (h : vector_search sim vo_embed user_query collection = some (Sum.inr l)) :
    l.length ≤ 5 ∧ List.Pairwise (fun a b => b.score ≤ a.score) l := by
  obtain ⟨qe, rfl⟩ := vector_search_inr sim vo_embed user_query collection l h
  exact run_pipeline_spec sim collection qe

/-- Witness for C1 on a concrete two-document collection. -/
theorem c1_witness :
    ([projectDoc wDoc2 3, projectDoc wDoc1 2] : List ProjectedDoc).length ≤ 5 ∧
      List.Pairwise (fun a b => b.score ≤ a.score)
        [projectDoc wDoc2 3, projectDoc wDoc1 2] :=
  c1_vector_search_limit_and_order wSim wRemote "hello" wColl
    [projectDoc wDoc2 3, projectDoc wDoc1 2] (by decide)

/-- C2: For every blank or whitespace-only input string, `get_embedding`
returns the empty vector without raising and without calling the remote
embedding service (the `Bool` call flag is `false`), so no quota is used. -/
theorem c2_blank_input (vo_embed : String → List (List ℤ)) (text : String)
    (h : isBlank text = true) :
    get_embedding vo_embed text = some (EmbResult.vec [], false) := by
  unfold get_embedding
  rw [if_pos h]

/-- Witness for C2 on a whitespace-only string. -/
theorem c2_witness : get_embedding wRemote " \t" = some (EmbResult.vec [], false) :=
  c2_blank_input wRemote " \t" (by decide)

/-- C3: When the fetch of one location yields a non-200 response, the loader
does not raise (it is a total function): it logs the failing location, skips
that file, and the combined result is exactly the concatenation of the rows
of the successfully fetched files (`None` when there were none). -/
theorem c3_loader_partial (fetch : String → HttpResponse) (urls : List String)
    (u : String) (hu : u ∈ urls) (hfail : (fetch u).status_code ≠ 200) :
    failLog u (fetch u).status_code ∈ (download_and_combine_parquet_files fetch urls).2 ∧
    (download_and_combine_parquet_files fetch urls).1 =
      (if (successRows fetch urls).isEmpty then Option.none
       else some (successRows fetch urls).flatten) := by
  have hmem : failLog u (fetch u).status_code ∈ failLogs fetch urls := by
    apply List.mem_map.mpr
    refine ⟨u, ?_, rfl⟩
    apply List.mem_filter.mpr
    exact ⟨hu, by simp [hfail]⟩
  by_cases hC : (successRows fetch urls).isEmpty
  · constructor
    · simp [download_and_combine_parquet_files, loader_acc, hC, List.mem_append, hmem]
    · simp [download_and_combine_parquet_files, loader_acc, hC]
  · constructor
    · simp [download_and_combine_parquet_files, loader_acc, hC, hmem]
    · simp [download_and_combine_parquet_files, loader_acc, hC]

/-- Witness for C3: one good and one failing location. -/
theorem c3_witness :
    failLog "bad" (wFetch "bad").status_code ∈
      (download_and_combine_parquet_files wFetch ["good", "bad"]).2 ∧
    (download_and_combine_parquet_files wFetch ["good", "bad"]).1 =
      (if (successRows wFetch ["good", "bad"]).isEmpty then Option.none
       else some (successRows wFetch ["good", "bad"]).flatten) :=
  c3_loader_partial wFetch ["good", "bad"] "bad" (by decide) (by decide)

/-- C9: When no location yields a successful response, the loader returns
`None` rather than an empty table, and logs that there are no dataframes to
concatenate. -/
theorem c9_loader_all_fail (fetch : String → HttpResponse) (urls : List String)
    (h : ∀ u ∈ urls, (fetch u).status_code ≠ 200) :
    (download_and_combine_parquet_files fetch urls).1 = Option.none ∧
    "No dataframes to concatenate." ∈ (download_and_combine_parquet_files fetch urls).2 := by
  have hempty : successRows fetch urls = [] := by
    unfold successRows
    rw [List.map_eq_nil_iff]
    rw [List.filter_eq_nil_iff]
    intro u hu
    simp [h u hu]
  constructor <;> simp [download_and_combine_parquet_files, loader_acc, hempty]

/-- Witness for C9: a single failing location. -/
theorem c9_witness :
    (download_and_combine_parquet_files wFetch ["bad"]).1 = Option.none ∧
    "No dataframes to concatenate." ∈ (download_and_combine_parquet_files wFetch ["bad"]).2 :=
  c9_loader_all_fail wFetch ["bad"] (by decide)

/-- C5: For every non-blank input text, `get_embedding` returns a vector of
the dimensionality configured on the index store (1536), assuming the remote
embedding service honours its contract of answering one 1536-vector per
input. -/
theorem c5_embedding_dimension (vo_embed : String → List (List ℤ)) (text : String)
    (hc : ∀ t, (vo_embed t).length = 1 ∧ ∀ v ∈ vo_embed t, v.length = 1536)
    (ht : isBlank text = false) :
    ∃ v, get_embedding vo_embed text = some (EmbResult.vec v, true) ∧ v.length = 1536 := by
  obtain ⟨hlen, hdim⟩ := hc text
  cases hv : vo_embed text with
  | nil => rw [hv] at hlen; simp at hlen
  | cons v vs =>
    refine ⟨v, ?_, hdim v (by rw [hv]; exact List.mem_cons_self v vs)⟩
    have hnb : ¬ (isBlank text = true) := by rw [ht]; simp
    unfold get_embedding
    rw [if_neg hnb, hv]
    rfl

/-- Witness for C5 with a contract-honouring remote service. -/
theorem c5_witness :
    ∃ v, get_embedding wRemote1536 "hello" = some (EmbResult.vec v, true) ∧
      v.length = 1536 :=
  c5_embedding_dimension wRemote1536 "hello"
    (fun t => ⟨rfl, fun v hv => by
      simp only [wRemote1536, List.mem_singleton] at hv
      subst hv
      rw [List.length_replicate]⟩)
    (by decide)

/-- C10: `get_embedding` never returns `None`, so the `is None` guard in
`vector_search` is unreachable; a blank user query makes `vector_search` run
the aggregation pipeline with the empty list as query vector. -/
theorem c10_none_guard_unreachable :
    (∀ (vo_embed : String → List (List ℤ)) (text : String) (r : EmbResult) (b : Bool),
        get_embedding vo_embed text = some (r, b) → r ≠ EmbResult.pyNone) ∧
    (∀ (sim : List ℤ → List ℤ → ℤ) (vo_embed : String → List (List ℤ))
        (collection : List Document) (query : String), isBlank query = true →
        vector_search sim vo_embed query collection =
          some (Sum.inr (run_pipeline sim collection []))) := by
  constructor
  · intro vo_embed text r b h
    unfold get_embedding at h
    by_cases hb : isBlank text
    · rw [if_pos hb] at h
      simp only [Option.some.injEq, Prod.mk.injEq] at h
      obtain ⟨h1, h2⟩ := h
      subst h1
      intro hc
      cases hc
    · rw [if_neg hb] at h
      cases hv : (vo_embed text).head? with
      | none => rw [hv] at h; simp at h
      | some v =>
        rw [hv] at h
        simp only [Option.some.injEq, Prod.mk.injEq] at h
        obtain ⟨h1, h2⟩ := h
        subst h1
        intro hc
        cases hc
  · intro sim vo_embed collection query hq
    unfold vector_search
    rw [show get_embedding vo_embed query = some (EmbResult.vec [], false) from by
      unfold get_embedding; rw [if_pos hq]]

/-- Witness for C10: a concrete embedded value and a blank query run. -/
theorem c10_witness :
    EmbResult.vec ([] : List ℤ) ≠ EmbResult.pyNone ∧
    vector_search wSim wRemote "" [] = some (Sum.inr (run_pipeline wSim [] [])) :=
  ⟨c10_none_guard_unreachable.1 wRemote "" (EmbResult.vec []) false (by decide),
   c10_none_guard_unreachable.2 wSim wRemote [] "" (by decide)⟩

/-- C6: Every record returned by `vector_search` excludes the `_id` and
`embedding` fields (the projected record type has neither, and the projection
is invariant under changing them), carries the similarity-score annotation,
and passes every other field of the stored record through unchanged. -/
theorem c6_projection_frame (sim : List ℤ → List ℤ → ℤ)
    (vo_embed : String → List (List ℤ)) (user_query : String)
    (collection : List Document) (l : List ProjectedDoc)
    (h : vector_search sim vo_embed user_query collection = some (Sum.inr l)) :
    (∀ p ∈ l, ∃ d s, d ∈ collection ∧ p = projectDoc d s ∧
        p.title = d.title ∧ p.companyName = d.companyName ∧
        p.companyUrl = d.companyUrl ∧ p.published_at = d.published_at ∧
        p.url = d.url ∧ p.description = d.description ∧ p.score = s) ∧
    (∀ (d : Document) (s : ℤ) (x : String) (emb : List ℤ),
        projectDoc { d with oid := x, embedding := emb } s = projectDoc d s) := by
  constructor
  · intro p hp
    obtain ⟨qe, rfl⟩ := vector_search_inr sim vo_embed user_query collection l h
    rw [run_pipeline] at hp
    obtain ⟨pair, hpair, hpd⟩ := List.mem_map.mp hp
    obtain ⟨hcol, hscore⟩ := mem_vectorSearchStage sim collection qe 150 5 pair hpair
    subst hpd
    exact ⟨pair.1, pair.2, hcol, rfl, rfl, rfl, rfl, rfl, rfl, rfl, rfl⟩
  · intro d s x emb
    rfl

/-- Witness for C6 on a concrete search run. -/
theorem c6_witness :
    ∃ d s, d ∈ wColl ∧ projectDoc wDoc2 3 = projectDoc d s ∧
      (projectDoc wDoc2 3).title = d.title ∧
      (projectDoc wDoc2 3).companyName = d.companyName ∧
      (projectDoc wDoc2 3).companyUrl = d.companyUrl ∧
      (projectDoc wDoc2 3).published_at = d.published_at ∧
      (projectDoc wDoc2 3).url = d.url ∧
      (projectDoc wDoc2 3).description = d.description ∧
      (projectDoc wDoc2 3).score = s :=
  (c6_projection_frame wSim wRemote "hello" wColl
      [projectDoc wDoc2 3, projectDoc wDoc1 2] (by decide)).1
    (projectDoc wDoc2 3) (by decide)

/-- C4: For every query string and every search-result list, the answer step
sends exactly one request to the language model, whose single user message is
the concatenation of the literal instruction text, the raw query, and the
context block (itself the concatenation of one fixed-format line per result),
and it returns the first text segment of the response together with that raw
context block; `handle_user_query` is exactly this step applied to the
`vector_search` output. -/
theorem c4_answer_generator (llm : LMRequest → LMResponse) (query : String)
    (results : List ProjectedDoc) :
    (respond_to_query llm query results).2 = [mkRequest query (mkContext results)] ∧
    (mkRequest query (mkContext results)).messages =
      [{ role := "user",
         content := "Answer this user query: " ++ query ++
           " with the following context: " ++ mkContext results }] ∧
    mkContext results = String.join (results.map fmtLine) ∧
    (∀ t ts, (llm (mkRequest query (mkContext results))).content = t :: ts →
        (respond_to_query llm query results).1 = some (t.text, mkContext results)) ∧
    (∀ (sim : List ℤ → List ℤ → ℤ) (vo_embed : String → List (List ℤ))
        (collection : List Document),
        vector_search sim vo_embed query collection = some (Sum.inr results) →
        handle_user_query sim vo_embed llm query collection =
          respond_to_query llm query results) := by
  refine ⟨?_, rfl, ?_, ?_, ?_⟩
  · cases hc : (llm (mkRequest query (mkContext results))).content.head? with
    | none => simp [respond_to_query, hc]
    | some block => simp [respond_to_query, hc]
  · rw [String.join, mkContext, List.foldl_map]
  · intro t ts hcontent
    have hh : (llm (mkRequest query (mkContext results))).content.head? = some t := by
      rw [hcontent]; rfl
    simp [respond_to_query, hh]
  · intro sim vo_embed collection hvs
    unfold handle_user_query
    rw [hvs]

/-- Witness for C4 on a concrete query, result list and model oracle. -/
theorem c4_witness :
    (respond_to_query wLLM "q" [projectDoc wDoc1 2]).2 =
      [mkRequest "q" (mkContext [projectDoc wDoc1 2])] ∧
    (respond_to_query wLLM "q" [projectDoc wDoc1 2]).1 =
      some ("ok", mkContext [projectDoc wDoc1 2]) :=
  ⟨(c4_answer_generator wLLM "q" [projectDoc wDoc1 2]).1,
   (c4_answer_generator wLLM "q" [projectDoc wDoc1 2]).2.2.2.1
     { text := "ok" } [] rfl⟩

/-- C7: With an empty search-result list the answer step does not crash: the
context block is the empty string, the request to the language model is still
issued, and whatever text the model yields is returned. -/
theorem c7_empty_results (llm : LMRequest → LMResponse) (query : String) :
    mkContext [] = "" ∧
    (respond_to_query llm query []).2 = [mkRequest query ""] ∧
    (∀ t ts, (llm (mkRequest query "")).content = t :: ts →
        (respond_to_query llm query []).1 = some (t.text, "")) := by
  refine ⟨rfl, ?_, ?_⟩
  · cases hc : (llm (mkRequest query "")).content.head? with
    | none => simp [respond_to_query, mkContext, hc]
    | some block => simp [respond_to_query, mkContext, hc]
  · intro t ts hcontent
    have hh : (llm (mkRequest query "")).content.head? = some t := by
      rw [hcontent]; rfl
    simp [respond_to_query, mkContext, hh]

/-- Witness for C7 on a concrete model oracle. -/
theorem c7_witness :
    (respond_to_query wLLM "q" []).2 = [mkRequest "q" ""] ∧
    (respond_to_query wLLM "q" []).1 = some ("ok", "") :=
  ⟨(c7_empty_results wLLM "q").2.1,
   (c7_empty_results wLLM "q").2.2 { text := "ok" } [] rfl⟩

/-- C8: When the connection attempt raises `ConnectionFailure`, the failure
is logged and the ingestion run aborts — no database operation executes and
no collection state is produced — because the next statement subscripts the
`None` client. -/
theorem c8_connection_failure_aborts (e : String) (records : List Document) :
    run_ingestion (Except.error e) records = (Option.none, [connFailedLog e]) ∧
    get_mongo_client (Except.error e) = (Option.none, [connFailedLog e]) :=
  ⟨rfl, rfl⟩
